import Mathlib

/-!
Verification of the ash.api service framework: a shallow embedding of the
hook-chaining / route-composition logic of `src/lib/app/declarations/service.ts`,
the fallback middleware of `src/lib/app/handlers.ts`, the store cache hooks of
`src/lib/app/declarations/store.ts`, and the user `authorize` operation.

JavaScript records (merged request body/query objects) are modelled as
association lists with first-occurrence lookup, which matches plain-object
key semantics once `merge` places the overriding spread first.  The ORM
(mongoose) is modelled as an in-memory list of documents: `find` is `filter`,
`skip`/`limit` are `drop`/`take`, `countDocuments` is `length`, `updateOne`
resolves the matched document (or null when none matches, which is exactly
the case the service code tests with `if (!value) throw`).  Promise
rejection is modelled with `Except String`.
-/

/-- A JavaScript primitive value as it appears in request bodies and
query strings.  `toNumber` below mirrors the `Number(...)` coercion used
by `Service.read`. -/
inductive JVal where
  | str : String → JVal
  | num : Int → JVal
  | boolean : Bool → JVal
  deriving DecidableEq, Repr

/-- A JavaScript plain object (request body, query, document):
an association list whose FIRST binding for a key is the visible one. -/
abbrev JObj := List (String × JVal)

/-- Property lookup on a JavaScript object: the first binding wins. -/
def getField (r : JObj) (k : String) : Option JVal :=
  (r.find? (fun p => p.1 == k)).map (fun p => p.2)

/-- Deletion of a property (the `delete query.page` statements of
`Service.read`): every binding of the key disappears. -/
def removeField (r : JObj) (k : String) : JObj :=
  r.filter (fun p => p.1 != k)

/-- The spread merge performed by every handler in service.ts: the query
object is spread second, so its bindings override the body bindings.
Placing `query` first gives it priority under first-binding lookup. -/
def mergeData (body query : JObj) : JObj :=
  query ++ body

/-- The `Number(x)` coercion of `Service.read` on an optional property:
`none` models `NaN` (absent property or unparseable string), since the
only uses compare with `>` and every comparison with `NaN` is false. -/
def toNumber : Option JVal → Option Int
  | some (JVal.num n) => some n
  | some (JVal.str s) => s.toInt?
  | some (JVal.boolean b) => some (if b then 1 else 0)
  | none => none

/-- A JavaScript `>` comparison whose left operand may be `NaN` (`none`):
comparisons against `NaN` are always false. -/
def jsGt : Option Int → Int → Bool
  | some a, b => decide (b < a)
  | none, _ => false

/-- A mongoose-style equality filter: the document matches when every key
of the query object has the same (first-binding) value in the document. -/
def matchesQuery (q doc : JObj) : Bool :=
  (q.map Prod.fst).all (fun k => getField doc k == getField q k)

/-- Payload of a response: a single object, a document list (plain GET
result), or the paged shape produced by `Service.read`. -/
inductive PVal where
  | obj : JObj → PVal
  | arr : List JObj → PVal
  | paged : List JObj → Nat → PVal
  deriving DecidableEq, Repr

/-- The `Return<T>` wire envelope of `src/lib/app/helpers/return.ts`. -/
structure ReturnEnv (P : Type) where
  message : Option String
  payload : Option P
  debug : Option String
  deriving DecidableEq, Repr

/-- A sent HTTP response: `response.status(s).send(result)`. -/
structure HttpResponse (P : Type) where
  status : Nat
  body : ReturnEnv P
  deriving DecidableEq, Repr

/-- `Service.exit`: shape the envelope from a value and options and send it
with the given status (service.ts lines 258-269). -/
def serviceExit {P : Type} (value : P) (message : Option String) (status : Nat)
    (dbg : Option String) : HttpResponse P :=
  ⟨status, ⟨message, some value, dbg⟩⟩

/-! Fallback middleware, `src/lib/app/handlers.ts`.  The two string
constants live in `src/lib/app/constants.ts`, which is not part of the
sources; only their fixed-string nature matters here. -/

/-- Modelled from the spec: the fixed "not found" string of the missing
`src/lib/app/constants.ts` (`constants.strings.not_found_error`); the spec
only fixes that it is one constant used for both message and debug. -/
def not_found_error : String := "Oops, route not found!"

/-- Modelled from the spec: the fixed "too large" string of the missing
`src/lib/app/constants.ts` (`constants.strings.too_large_error`). -/
def too_large_error : String := "Oops, request entity too large!"

/-- The 404 fallback middleware (handlers.ts lines 13-21): respond 404
with the not-found constant as both message and debug and the original
request body as payload. -/
def notFoundHandler (body : JObj) : HttpResponse JObj :=
  ⟨404, ⟨some not_found_error, some body, some not_found_error⟩⟩

/-- A framework-reported error as seen by the error middleware:
`\x7b type, message \x7d`. -/
structure JsError where
  type : String
  message : String
  deriving DecidableEq, Repr

/-- The payload-too-large error middleware (handlers.ts lines 27-40):
respond 413 for kind `entity.too.large`, re-throw anything else
(`Except.error` models the re-thrown error). -/
def errorMiddleware (err : JsError) (body : JObj) : Except JsError (HttpResponse JObj) :=
  if err.type = "entity.too.large" then
    Except.ok ⟨413, ⟨some too_large_error, some body, some err.message⟩⟩
  else
    Except.error err

/-! The store cache hooks, `src/lib/app/declarations/store.ts` lines 89-109. -/

/-- Lookup in the cache's `data` object. -/
def assocGet {α : Type} (l : List (String × α)) (k : String) : Option α :=
  (l.find? (fun p => p.1 == k)).map (fun p => p.2)

/-- JavaScript property assignment `data[k] = v`: replace the binding when
the key is present, append a new binding otherwise. -/
def setKey {α : Type} (d : List (String × α)) (k : String) (v : α) :
    List (String × α) :=
  if d.any (fun p => p.1 == k) then
    d.map (fun p => if p.1 == k then (k, v) else p)
  else
    d ++ [(k, v)]

/-- JavaScript `delete data[k]`. -/
def delKey {α : Type} (d : List (String × α)) (k : String) : List (String × α) :=
  d.filter (fun p => p.1 != k)

/-- The store's in-memory mirror `\x7b count, data \x7d`. -/
structure StoreCache where
  count : Nat
  data : List (String × JObj)
  deriving DecidableEq, Repr

/-- The schema post-save hook: cache the saved record and increment count. -/
def postSaveHook (c : StoreCache) (id : String) (v : JObj) : StoreCache :=
  ⟨c.count + 1, setKey c.data id v⟩

/-- The schema post-update hook: cache the record, count untouched. -/
def postUpdateHook (c : StoreCache) (id : String) (v : JObj) : StoreCache :=
  ⟨c.count, setKey c.data id v⟩

/-- The schema post-remove hook: drop the record's entry, count untouched. -/
def postRemoveHook (c : StoreCache) (id : String) : StoreCache :=
  ⟨c.count, delKey c.data id⟩

/-! The built-in CRUD operations of `Service` (service.ts lines 274-323)
and the route handlers of `Service.crud` (lines 155-253), over the
in-memory document model of the ORM. -/

/-- `Service.read` (service.ts lines 281-305): coerce `page` and `size`
to numbers, delete them from the filter, and either return the paged
shape `\x7b page, length \x7d` (skip `page*size`, limit `size`, count of all
matches) when `page > -1 && size > 0`, or the full matching set. -/
def serviceRead (db : List JObj) (data : JObj) : PVal :=
  let page := toNumber (getField data "page")
  let size := toNumber (getField data "size")
  let query := removeField (removeField data "page") "size"
  let found := db.filter (matchesQuery query)
  if jsGt page (-1) && jsGt size 0 then
    PVal.paged ((found.drop ((page.getD 0) * (size.getD 0)).toNat).take (size.getD 0).toNat)
      found.length
  else
    PVal.arr found

/-- `Service.update` (service.ts lines 306-314): `updateOne` on the `_id`
filter resolves the matched document or null; a null resolution raises
the not-found error, otherwise the submitted data is returned. -/
def serviceUpdate (name : String) (db : List JObj) (data : JObj) : Except String JObj :=
  match db.find? (fun doc => getField doc "_id" == getField data "_id") with
  | none => Except.error ("Oops, " ++ name ++ " does not exist!")
  | some _ => Except.ok data

/-- The GET route handler (service.ts lines 189-207): merge body and
query, run `read` (whose ORM calls may reject, hence the `Except`
parameter), respond 200 on success, 404 with the list-not-found message
and the exception text on failure. -/
def getRoute (name : String) (read : JObj → Except String PVal) (body query : JObj) :
    HttpResponse PVal :=
  let data := mergeData body query
  match read data with
  | Except.ok v => serviceExit v (some "Hi, a data payload is provided!") 200 none
  | Except.error e =>
      serviceExit (PVal.obj data) (some ("Oops, could not find " ++ name ++ " list!")) 404 (some e)

/-- The GET route over the in-memory document store. -/
def getRouteDb (name : String) (db : List JObj) (body query : JObj) : HttpResponse PVal :=
  getRoute name (fun d => Except.ok (serviceRead db d)) body query

/-- The PUT route handler (service.ts lines 208-226): merge body and
query, run `update`, respond 200 on success or 413 with the
could-not-update message and the exception text on failure. -/
def putRoute (name : String) (db : List JObj) (body query : JObj) : HttpResponse PVal :=
  let data := mergeData body query
  match serviceUpdate name db data with
  | Except.ok v =>
      serviceExit (PVal.obj v) (some ("Hi, an " ++ name ++ " has been updated!")) 200 none
  | Except.error e =>
      serviceExit (PVal.obj data) (some ("Oops, could not update " ++ name ++ "!")) 413 (some e)

/-- The POST route handler (service.ts lines 170-188): merge body and
query, run `create` (ORM save, abstracted as an `Except`-valued
operation), respond 201 on success or 422 on failure. -/
def postRoute (name : String) (create : JObj → Except String JObj) (body query : JObj) :
    HttpResponse PVal :=
  let data := mergeData body query
  match create data with
  | Except.ok v =>
      serviceExit (PVal.obj v) (some ("Hi, an " ++ name ++ " has been created!")) 201 none
  | Except.error e =>
      serviceExit (PVal.obj data) (some ("Oops, could not create " ++ name ++ "!")) 422 (some e)

/-- `Service.delete` (service.ts lines 315-323): `findOneAndRemove` on
the `_id` filter resolves the removed document or null; null raises the
could-not-remove error. -/
def serviceDelete (name : String) (db : List JObj) (data : JObj) : Except String JObj :=
  match db.find? (fun doc => getField doc "_id" == getField data "_id") with
  | none => Except.error ("Oops, could not remove " ++ name)
  | some _ => Except.ok data

/-- The DELETE route handler (service.ts lines 227-246): merge body and
query, run `delete`, respond 200 on success or 422 on failure. -/
def deleteRoute (name : String) (db : List JObj) (body query : JObj) : HttpResponse PVal :=
  let data := mergeData body query
  match serviceDelete name db data with
  | Except.ok v =>
      serviceExit (PVal.obj v) (some ("Hi, an " ++ name ++ " has been removed!")) 200 none
  | Except.error e =>
      serviceExit (PVal.obj data) (some ("Oops, could not remove " ++ name ++ "!")) 422 (some e)

/-! The sub-route handler chains built by `Service.addservices`
(service.ts lines 46-145) together with the authentication gate
(lines 392-417).

A registered Express middleware for one method+path is modelled as a
function from the request's body and query to an outcome: either a sent
response (after which no later middleware of the route runs) or a call
to `next` (with the optional value the code passes to it).  Each handler
additionally reports which hook it invoked and on which input, so that
"this hook never runs" and "this hook received exactly the merged
request data" are provable statements about a run. -/

/-- A before/after hook or terminal callback; `id` stands for the
JavaScript function reference (two list entries are the same function
exactly when their ids agree, which is what `Array.indexOf` compares),
and `fn` is the asynchronous action (rejection = `Except.error`). -/
structure Hook where
  id : Nat
  fn : JObj → Except String JObj

/-- The record of one hook invocation during a run. -/
structure HookEvent where
  hookId : Nat
  input : JObj
  deriving DecidableEq, Repr

/-- What one registered middleware did with the request. -/
inductive Outcome where
  | respond : HttpResponse PVal → Outcome
  | forward : Option JObj → Outcome
  deriving DecidableEq, Repr

/-- One registered middleware: body and query in, invoked-hook events and
an outcome out. -/
abbrev Handler := JObj → JObj → List HookEvent × Outcome

/-- A `Subservice` descriptor (service.ts lines 456-470); `hooks`,
`hooks.before`, `hooks.after` and `callback` are each optional, and a
DEFINED-but-empty after list is distinct from an absent one (the
callback handler tests `!value.hooks?.after`, i.e. definedness). -/
structure Subservice where
  method : String
  message : Option String
  error : Option String
  authenticate : Bool
  before : Option (List Hook)
  after : Option (List Hook)
  callback : Option Hook

/-- JavaScript `Array.prototype.indexOf` over the function references of
a hook list: first index of the element, `-1` when absent. -/
def jsIndexOf : List Nat → Nat → Int
  | [], _ => -1
  | y :: ys, x =>
      if y == x then 0
      else
        let r := jsIndexOf ys x
        if r = -1 then -1 else r + 1

/-- The fixed message of the authentication gate. -/
def authErrMsg : String := "Oops, authentication error occurred!"

/-- `Service.authenticate` gate middleware (service.ts lines 392-417):
run the context's `authenticate` on the merged data; a falsy resolution
throws (and is caught with the same fixed message), a rejection is
caught with its own message, both respond 412; a truthy resolution calls
`next()` with no payload. -/
def authGate (authFn : JObj → Except String Bool) : Handler := fun body query =>
  let data := mergeData body query
  match authFn data with
  | Except.ok true => ([], Outcome.forward none)
  | Except.ok false =>
      ([], Outcome.respond (serviceExit (PVal.obj data) (some authErrMsg) 412 (some authErrMsg)))
  | Except.error e =>
      ([], Outcome.respond (serviceExit (PVal.obj data) (some authErrMsg) 412 (some e)))

/-- The `hooker` middleware for a before-hook (service.ts lines 59-96,
`hook == 'before'` branch): invoke the hook on the merged data; on
success `next(result)`, on rejection respond 422 with the descriptor's
error message, the merged data as payload and the exception text. -/
def beforeHandler (s : Subservice) (h : Hook) : Handler := fun body query =>
  let data := mergeData body query
  match h.fn data with
  | Except.ok r => ([⟨h.id, data⟩], Outcome.forward (some r))
  | Except.error e =>
      ([⟨h.id, data⟩],
        Outcome.respond (serviceExit (PVal.obj data) s.error 422 (some e)))

/-- The `hooker` middleware for an after-hook (service.ts lines 59-96,
`hook == 'after'` branch): invoke the hook on the merged data; on
success, respond 200 with the descriptor's success message and the
hook's result exactly when `indexOf` of the hook in the after list is
the last index, else `next(result)`; on rejection respond 422. -/
def afterHandler (s : Subservice) (h : Hook) : Handler := fun body query =>
  let data := mergeData body query
  let ids := (s.after.getD []).map Hook.id
  match h.fn data with
  | Except.ok r =>
      if jsIndexOf ids h.id = (ids.length : Int) - 1 then
        ([⟨h.id, data⟩], Outcome.respond (serviceExit (PVal.obj r) s.message 200 none))
      else
        ([⟨h.id, data⟩], Outcome.forward (some r))
  | Except.error e =>
      ([⟨h.id, data⟩],
        Outcome.respond (serviceExit (PVal.obj data) s.error 422 (some e)))

/-- The custom-callback middleware (service.ts lines 109-136): invoke
the callback on the merged data; on success respond 200 when the after
list is undefined, else `next(result)`; on rejection respond 422. -/
def callbackHandler (s : Subservice) (h : Hook) : Handler := fun body query =>
  let data := mergeData body query
  match h.fn data with
  | Except.ok r =>
      match s.after with
      | none => ([⟨h.id, data⟩], Outcome.respond (serviceExit (PVal.obj r) s.message 200 none))
      | some _ => ([⟨h.id, data⟩], Outcome.forward (some r))
  | Except.error e =>
      ([⟨h.id, data⟩],
        Outcome.respond (serviceExit (PVal.obj data) s.error 422 (some e)))

/-- The registration order of `addservices` for one sub-route: the
authentication gate (when flagged) first, then the before-hooks in list
order, then the callback (when present), then the after-hooks in list
order. -/
def subserviceChain (authFn : JObj → Except String Bool) (s : Subservice) : List Handler :=
  (if s.authenticate then [authGate authFn] else [])
    ++ (s.before.getD []).map (beforeHandler s)
    ++ (match s.callback with
        | some c => [callbackHandler s c]
        | none => [])
    ++ (s.after.getD []).map (afterHandler s)

/-- Express-style execution of the registered middleware of one
method+path: run each handler in registration order; a sent response
ends the chain (so at most one response is ever emitted), a `next` call
moves on to the next handler with the forwarded value discarded, exactly
as each handler rebuilds its data from the request.  The result is the
concatenated hook-invocation trace and the response, `none` when the
chain ran off its end without responding. -/
def runChain : List Handler → JObj → JObj → List HookEvent × Option (HttpResponse PVal)
  | [], _, _ => ([], none)
  | h :: rest, body, query =>
      match h body query with
      | (evs, Outcome.respond r) => (evs, some r)
      | (evs, Outcome.forward _) =>
          let tail := runChain rest body query
          (evs ++ tail.1, tail.2)

/-! The user resource (`src/lib/app/store/user.store.ts` together with
the `User` service declaration). -/

/-- A stored user document (the fields `authorize` inspects). -/
structure UserModel where
  username : String
  password : String
  deriving DecidableEq, Repr

/-- The request data handed to `authorize`; either credential field may
be absent. -/
structure UserData where
  username : Option String
  password : Option String
  deriving DecidableEq, Repr

/-- JavaScript falsiness of an optional string: `undefined` and the
empty string are falsy. -/
def jsFalsyStr : Option String → Bool
  | none => true
  | some s => s.isEmpty

/-- `findOne` on the user store with a `\x7b username, password \x7d` filter:
the first stored document whose two fields equal the given values. -/
def userFindOne (store : List UserModel) (username password : Option String) :
    Option UserModel :=
  store.find? (fun u => some u.username == username && some u.password == password)

/-- `User.authorize` (user declaration lines 142-154): a falsy username
throws the validation error; otherwise `findOne` on both credentials,
rejecting with the authentication error when nothing matches and
returning the matched record otherwise. -/
def authorize (store : List UserModel) (data : UserData) : Except String UserModel :=
  if jsFalsyStr data.username then Except.error "Oops, username is required!"
  else
    match userFindOne store data.username data.password with
    | none => Except.error "Oops, username or password is incorrect!"
    | some u => Except.ok u

/-! Concrete descriptors used as evaluation inputs. -/

/-- An after-hook that passes the data through unchanged. -/
def idHook : Hook := ⟨0, fun d => Except.ok d⟩

/-- A first after-hook of a well-formed two-hook sub-route. -/
def a1Hook : Hook := ⟨1, fun d => Except.ok d⟩

/-- A second after-hook that extends the data. -/
def a2Hook : Hook := ⟨2, fun d => Except.ok (d ++ [("x", JVal.num 7)])⟩

/-- A terminal callback. -/
def cbHook : Hook := ⟨5, fun d => Except.ok d⟩

/-- A hook whose promise always rejects. -/
def failHook : Hook := ⟨9, fun _ => Except.error "boom"⟩

/-- A sub-route whose after list holds the SAME hook function twice. -/
def dupAfterService : Subservice :=
  { method := "post", message := some "Hi, done!", error := some "Oops, failed!",
    authenticate := false, before := none, after := some [idHook, idHook],
    callback := some cbHook }

/-- A sub-route with two distinct after-hooks and a callback. -/
def twoAfterService : Subservice :=
  { method := "post", message := some "Hi, done!", error := some "Oops, failed!",
    authenticate := false, before := none, after := some [a1Hook, a2Hook],
    callback := some cbHook }

/-- A protected sub-route (`authenticate: true`) with hooks. -/
def authService : Subservice :=
  { method := "post", message := some "Hi, done!", error := some "Oops, failed!",
    authenticate := true, before := some [a1Hook], after := none,
    callback := some cbHook }

/-- A store of 25 documents that all match the empty filter. -/
def db25 : List JObj := List.replicate 25 ([] : JObj)

/-- A one-document store for the PUT examples. -/
def dbOne : List JObj := [[("_id", JVal.str "id1"), ("v", JVal.num 1)]]

/-! Helper lemmas. -/

theorem assocGet_setKey {α : Type} (d : List (String × α)) (k : String) (v : α) :
    assocGet (setKey d k v) k = some v := by
  induction d with
  | nil => simp [assocGet, setKey]
  | cons p rest ih =>
    rcases hp : (p.1 == k) with _ | _
    · rcases ha : rest.any (fun q => q.1 == k) with _ | _
      · have hall : (p :: rest).any (fun q => q.1 == k) = false := by
          simp only [List.any_cons, hp, Bool.false_or, ha]
        have hrest : setKey rest k v = rest ++ [(k, v)] := by
          simp [setKey, ha]
        simp only [setKey, hall, Bool.false_eq_true, if_false, List.cons_append]
        simp only [assocGet, List.find?_cons, hp]
        have := ih
        rw [hrest] at this
        simpa [assocGet] using this
      · have hall : (p :: rest).any (fun q => q.1 == k) = true := by
          simp only [List.any_cons, hp, Bool.false_or, ha]
        have hrest : setKey rest k v = rest.map (fun q => if q.1 == k then (k, v) else q) := by
          simp [setKey, ha]
        simp only [setKey, hall, if_true, List.map_cons, hp, Bool.false_eq_true, if_false]
        simp only [assocGet, List.find?_cons, hp]
        have := ih
        rw [hrest] at this
        simpa [assocGet] using this
    · have hall : (p :: rest).any (fun q => q.1 == k) = true := by
        simp only [List.any_cons, hp, Bool.true_or]
      have hg : (if (p.1 == k) then (k, v) else p) = (k, v) := by
        simp [hp]
      simp only [setKey, hall, if_true, List.map_cons, hg]
      simp [assocGet, List.find?_cons]

theorem assocGet_delKey {α : Type} (d : List (String × α)) (k : String) :
    assocGet (delKey d k) k = none := by
  have h : (d.filter (fun p => p.1 != k)).find? (fun p => p.1 == k) = none := by
    rw [List.find?_eq_none]
    intro x hx
    have hmem := (List.mem_filter.mp hx).2
    simpa using hmem
  simp [assocGet, delKey, h]

theorem delKey_map_set {α : Type} (d : List (String × α)) (k : String) (v : α) :
    delKey (d.map (fun q => if q.1 == k then (k, v) else q)) k = delKey d k := by
  induction d with
  | nil => rfl
  | cons p rest ih =>
    rcases hp : (p.1 == k) with _ | _
    · simp only [List.map_cons, hp, Bool.false_eq_true, if_false, delKey, List.filter_cons]
      simp only [bne, hp, Bool.not_false, if_true]
      simpa [delKey] using ih
    · simp only [List.map_cons, hp, if_true, delKey, List.filter_cons]
      simp only [bne, hp, Bool.not_true, beq_self_eq_true, Bool.false_eq_true, if_false]
      simpa [delKey] using ih

theorem delKey_setKey {α : Type} (d : List (String × α)) (k : String) (v : α) :
    delKey (setKey d k v) k = delKey d k := by
  rcases ha : d.any (fun q => q.1 == k) with _ | _
  · simp only [setKey, ha, Bool.false_eq_true, if_false]
    simp [delKey, List.filter_append]
  · simp only [setKey, ha, if_true]
    exact delKey_map_set d k v

/-! Claim theorems. -/

/-- C10, amended: the post-save lifecycle hook caches the saved record
and increments `cache.count`; the post-update hook replaces the record
with `count` unchanged; the post-remove hook deletes the record's entry
with `count` unchanged; and a save followed by a remove of the same
record leaves `cache.count` strictly above the number of entries of
`cache.data` PROVIDED `count` was at least the entry count beforehand
(true of the initial empty cache and preserved by save and remove,
though not by an update of an uncached record). -/
theorem cache_hooks_drift (c : StoreCache) (id : String) (v : JObj) :
    (postSaveHook c id v).count = c.count + 1 ∧
    assocGet (postSaveHook c id v).data id = some v ∧
    (postUpdateHook c id v).count = c.count ∧
    assocGet (postUpdateHook c id v).data id = some v ∧
    (postRemoveHook c id).count = c.count ∧
    assocGet (postRemoveHook c id).data id = none ∧
    (c.data.length ≤ c.count →
      (postRemoveHook (postSaveHook c id v) id).data.length
        < (postRemoveHook (postSaveHook c id v) id).count) := by
  refine ⟨rfl, assocGet_setKey c.data id v, rfl, assocGet_setKey c.data id v, rfl,
    assocGet_delKey c.data id, ?_⟩
  intro h
  show (delKey (setKey c.data id v) id).length < c.count + 1
  rw [delKey_setKey]
  calc (delKey c.data id).length ≤ c.data.length := List.length_filter_le _ _
    _ ≤ c.count := h
    _ < c.count + 1 := Nat.lt_succ_self _

/-- Witness for C10 at the initial empty cache. -/
theorem cache_hooks_drift_witness :
    (postRemoveHook (postSaveHook ⟨0, []⟩ "a" []) "a").data.length
      < (postRemoveHook (postSaveHook ⟨0, []⟩ "a" []) "a").count :=
  (cache_hooks_drift ⟨0, []⟩ "a" []).2.2.2.2.2.2 (by decide)

/-- C8: the 404 fallback responds with status 404 and an envelope whose
payload is the original request body and whose message and debug fields
are both the same fixed not-found string. -/
theorem not_found_fallback (body : JObj) :
    notFoundHandler body = ⟨404, ⟨some not_found_error, some body, some not_found_error⟩⟩ ∧
    (notFoundHandler body).status = 404 ∧
    (notFoundHandler body).body.payload = some body ∧
    (notFoundHandler body).body.message = (notFoundHandler body).body.debug :=
  ⟨rfl, rfl, rfl, rfl⟩

/-- C7: the error middleware responds 413 with the fixed too-large
message, the original request body as payload and the error text as
debug exactly for errors of kind `entity.too.large`; every other error
is re-thrown unchanged. -/
theorem error_middleware_too_large (err : JsError) (body : JObj) :
    (err.type = "entity.too.large" →
      errorMiddleware err body =
        Except.ok ⟨413, ⟨some too_large_error, some body, some err.message⟩⟩) ∧
    (err.type ≠ "entity.too.large" → errorMiddleware err body = Except.error err) := by
  constructor <;> intro h <;> simp [errorMiddleware, h]

/-- Witness for C7 on a too-large error and on an unrelated error. -/
theorem error_middleware_too_large_witness :
    errorMiddleware ⟨"entity.too.large", "request entity too large"⟩ [] =
      Except.ok ⟨413, ⟨some too_large_error, some [],
        some "request entity too large"⟩⟩ ∧
    errorMiddleware ⟨"charset.unsupported", "unsupported charset"⟩ [] =
      Except.error ⟨"charset.unsupported", "unsupported charset"⟩ :=
  ⟨(error_middleware_too_large ⟨"entity.too.large", "request entity too large"⟩ []).1 rfl,
    (error_middleware_too_large ⟨"charset.unsupported", "unsupported charset"⟩ []).2
      (by decide)⟩

/-- C6: `authorize` throws the validation error on a falsy (absent or
empty) username; otherwise it looks up one record matching username and
password, rejects with the authentication error when none matches (so a
wrong password never yields the stored record), and returns the matched
record otherwise. -/
theorem authorize_spec (store : List UserModel) (data : UserData) :
    (jsFalsyStr data.username = true →
      authorize store data = Except.error "Oops, username is required!") ∧
    (jsFalsyStr data.username = false →
      userFindOne store data.username data.password = none →
      authorize store data = Except.error "Oops, username or password is incorrect!") ∧
    (∀ u, jsFalsyStr data.username = false →
      userFindOne store data.username data.password = some u →
      authorize store data = Except.ok u) ∧
    (∀ a right wrong, a ≠ "" → wrong ≠ right →
      authorize [⟨a, right⟩] ⟨some a, some wrong⟩ =
        Except.error "Oops, username or password is incorrect!") := by
  refine ⟨?_, ?_, ?_, ?_⟩
  · intro h
    simp [authorize, h]
  · intro h hnone
    simp [authorize, h, hnone]
  · intro u h hsome
    simp [authorize, h, hsome]
  · intro a right wrong ha hw
    have hfalsy : jsFalsyStr (some a) = false := by
      simp only [jsFalsyStr]
      exact Bool.eq_false_iff.mpr (fun h => ha ((String.isEmpty_iff a).mp h))
    have hbe : (right == wrong) = false :=
      beq_eq_false_iff_ne.mpr (fun h => hw h.symm)
    have hfind : userFindOne [⟨a, right⟩] (some a) (some wrong) = none := by
      simp [userFindOne, List.find?_cons, hbe]
    simp [authorize, hfalsy, hfind]

/-- Witness for C6: the wrong-password lookup against the one-record
store, plus the validation and success branches at concrete inputs. -/
theorem authorize_spec_witness :
    authorize [⟨"a", "right"⟩] ⟨some "a", some "wrong"⟩ =
      Except.error "Oops, username or password is incorrect!" ∧
    authorize [⟨"a", "right"⟩] ⟨none, none⟩ = Except.error "Oops, username is required!" ∧
    authorize [⟨"a", "right"⟩] ⟨some "a", some "right"⟩ = Except.ok ⟨"a", "right"⟩ :=
  ⟨(authorize_spec [⟨"a", "right"⟩] ⟨some "a", some "wrong"⟩).2.2.2 "a" "right" "wrong"
      (by decide) (by decide),
    (authorize_spec [⟨"a", "right"⟩] ⟨none, none⟩).1 rfl,
    (authorize_spec [⟨"a", "right"⟩] ⟨some "a", some "right"⟩).2.2.1 ⟨"a", "right"⟩ rfl
      (by decide)⟩

theorem serviceRead_paged_eq (db : List JObj) (data : JObj) (p s : Int)
    (hp : toNumber (getField data "page") = some p)
    (hs : toNumber (getField data "size") = some s)
    (h1 : -1 < p) (h2 : 0 < s) :
    serviceRead db data =
      PVal.paged
        (((db.filter (matchesQuery (removeField (removeField data "page") "size"))).drop
            (p * s).toNat).take s.toNat)
        (db.filter (matchesQuery (removeField (removeField data "page") "size"))).length := by
  simp [serviceRead, hp, hs, jsGt, h1, h2]

theorem serviceRead_plain_eq (db : List JObj) (data : JObj)
    (h : (jsGt (toNumber (getField data "page")) (-1)
      && jsGt (toNumber (getField data "size")) 0) = false) :
    serviceRead db data =
      PVal.arr (db.filter (matchesQuery (removeField (removeField data "page") "size"))) := by
  simp [serviceRead, h]

/-- C2: a PUT whose merged data carries an identifier matching no stored
document responds 413 with the could-not-update message and the
not-found text as debug; a PUT whose identifier matches a stored
document (so the modelled ORM update succeeds) responds 200. -/
theorem put_route_spec (name : String) (db : List JObj) (body query : JObj) :
    ((∀ doc ∈ db, getField doc "_id" ≠ getField (mergeData body query) "_id") →
      putRoute name db body query =
        serviceExit (PVal.obj (mergeData body query))
          (some ("Oops, could not update " ++ name ++ "!")) 413
          (some ("Oops, " ++ name ++ " does not exist!"))) ∧
    ((∃ doc ∈ db, getField doc "_id" = getField (mergeData body query) "_id") →
      putRoute name db body query =
        serviceExit (PVal.obj (mergeData body query))
          (some ("Hi, an " ++ name ++ " has been updated!")) 200 none) := by
  constructor
  · intro h
    have hfind : db.find?
        (fun doc => getField doc "_id" == getField (mergeData body query) "_id") = none := by
      rw [List.find?_eq_none]
      intro x hx
      simpa using h x hx
    simp [putRoute, serviceUpdate, hfind]
  · intro h
    obtain ⟨doc, hmem, heq⟩ := h
    have hsome : (db.find?
        (fun doc => getField doc "_id" == getField (mergeData body query) "_id")).isSome := by
      rw [List.find?_isSome]
      exact ⟨doc, hmem, by simp [heq]⟩
    obtain ⟨d0, hfind⟩ := Option.isSome_iff_exists.mp hsome
    simp [putRoute, serviceUpdate, hfind]

/-- Witness for C2: a missing identifier gives the 413 not-found
response; the stored identifier gives the 200 response. -/
theorem put_route_spec_witness :
    putRoute "user" dbOne [("_id", JVal.str "nope")] [] =
      serviceExit (PVal.obj (mergeData [("_id", JVal.str "nope")] []))
        (some "Oops, could not update user!") 413 (some "Oops, user does not exist!") ∧
    putRoute "user" dbOne [("_id", JVal.str "id1")] [] =
      serviceExit (PVal.obj (mergeData [("_id", JVal.str "id1")] []))
        (some "Hi, an user has been updated!") 200 none :=
  ⟨(put_route_spec "user" dbOne [("_id", JVal.str "nope")] []).1 (by decide),
    (put_route_spec "user" dbOne [("_id", JVal.str "id1")] []).2
      ⟨[("_id", JVal.str "id1"), ("v", JVal.num 1)], by decide, by decide⟩⟩

/-- C3: the GET pipeline coerces `page` and `size` to numbers and
removes them from the filter; with `page > -1` and `size > 0` it returns
the paged shape (results skipped by `page*size`, limited to `size`,
together with the total matching count) — in particular `page=0`,
`size=10` against 25 matching records gives a page of 10 and a length of
25 — otherwise it returns the full matching set; the route responds 200
when `read` resolves and 404 with the list-not-found message when it
rejects. -/
theorem get_route_pagination :
    (∀ (db : List JObj) (data : JObj) (p s : Int),
      toNumber (getField data "page") = some p →
      toNumber (getField data "size") = some s → -1 < p → 0 < s →
      serviceRead db data =
        PVal.paged
          (((db.filter (matchesQuery (removeField (removeField data "page") "size"))).drop
              (p * s).toNat).take s.toNat)
          (db.filter (matchesQuery (removeField (removeField data "page") "size"))).length) ∧
    (∀ (db : List JObj) (data : JObj),
      (jsGt (toNumber (getField data "page")) (-1)
        && jsGt (toNumber (getField data "size")) 0) = false →
      serviceRead db data =
        PVal.arr (db.filter (matchesQuery (removeField (removeField data "page") "size")))) ∧
    (∀ (db : List JObj) (data : JObj),
      toNumber (getField data "page") = some 0 →
      toNumber (getField data "size") = some 10 →
      (db.filter (matchesQuery (removeField (removeField data "page") "size"))).length = 25 →
      ∃ pg, serviceRead db data = PVal.paged pg 25 ∧ pg.length = 10) ∧
    (∀ (name : String) (read : JObj → Except String PVal) (body query : JObj) (v : PVal),
      read (mergeData body query) = Except.ok v →
      getRoute name read body query =
        serviceExit v (some "Hi, a data payload is provided!") 200 none) ∧
    (∀ (name : String) (read : JObj → Except String PVal) (body query : JObj) (e : String),
      read (mergeData body query) = Except.error e →
      getRoute name read body query =
        serviceExit (PVal.obj (mergeData body query))
          (some ("Oops, could not find " ++ name ++ " list!")) 404 (some e)) ∧
    (∀ (name : String) (db : List JObj) (body query : JObj),
      getRouteDb name db body query =
        serviceExit (serviceRead db (mergeData body query))
          (some "Hi, a data payload is provided!") 200 none) := by
  refine ⟨serviceRead_paged_eq, serviceRead_plain_eq, ?_, ?_, ?_, ?_⟩
  · intro db data hp hs hlen
    refine ⟨(db.filter
        (matchesQuery (removeField (removeField data "page") "size"))).take 10, ?_, ?_⟩
    · have := serviceRead_paged_eq db data 0 10 hp hs (by decide) (by decide)
      rw [this, hlen]
      rfl
    · rw [List.length_take, hlen]
      decide
  · intro name read body query v h
    simp [getRoute, h]
  · intro name read body query e h
    simp [getRoute, h]
  · intro name db body query
    simp [getRouteDb, getRoute]

/-- Witness for C3: 25 empty documents, `page=0`, `size=10`, plus the
404 branch on a rejecting read. -/
theorem get_route_pagination_witness :
    (∃ pg, serviceRead db25 [("page", JVal.num 0), ("size", JVal.num 10)] =
      PVal.paged pg 25 ∧ pg.length = 10) ∧
    getRoute "user" (fun _ => Except.error "lost") [] [] =
      serviceExit (PVal.obj (mergeData [] []))
        (some "Oops, could not find user list!") 404 (some "lost") :=
  ⟨get_route_pagination.2.2.1 db25 [("page", JVal.num 0), ("size", JVal.num 10)]
      rfl rfl (by decide),
    get_route_pagination.2.2.2.2.1 "user" (fun _ => Except.error "lost") [] [] "lost" rfl⟩

/-- C5: a rejecting before-hook, after-hook or callback is caught at its
own handler and answered with the descriptor's error message, the merged
request data as payload, status 422 and the exception text as debug;
nothing after the responding handler runs. -/
theorem hook_rejection_enveloped (s : Subservice) (h : Hook) (body query : JObj)
    (e : String) (hrej : h.fn (mergeData body query) = Except.error e) :
    beforeHandler s h body query =
      ([⟨h.id, mergeData body query⟩],
        Outcome.respond (serviceExit (PVal.obj (mergeData body query)) s.error 422 (some e))) ∧
    afterHandler s h body query =
      ([⟨h.id, mergeData body query⟩],
        Outcome.respond (serviceExit (PVal.obj (mergeData body query)) s.error 422 (some e))) ∧
    callbackHandler s h body query =
      ([⟨h.id, mergeData body query⟩],
        Outcome.respond (serviceExit (PVal.obj (mergeData body query)) s.error 422 (some e))) ∧
    (∀ rest, runChain (beforeHandler s h :: rest) body query =
      ([⟨h.id, mergeData body query⟩],
        some (serviceExit (PVal.obj (mergeData body query)) s.error 422 (some e)))) := by
  refine ⟨?_, ?_, ?_, ?_⟩
  · simp [beforeHandler, hrej]
  · simp [afterHandler, hrej]
  · simp [callbackHandler, hrej]
  · intro rest
    have hb : beforeHandler s h body query =
        ([⟨h.id, mergeData body query⟩],
          Outcome.respond (serviceExit (PVal.obj (mergeData body query)) s.error
            422 (some e))) := by
      simp [beforeHandler, hrej]
    simp [runChain, hb]

/-- Witness for C5 on the always-rejecting hook. -/
theorem hook_rejection_enveloped_witness :
    beforeHandler twoAfterService failHook [] [] =
      ([⟨9, []⟩],
        Outcome.respond (serviceExit (PVal.obj []) (some "Oops, failed!") 422
          (some "boom"))) :=
  (hook_rejection_enveloped twoAfterService failHook [] [] "boom" rfl).1

/-- C4: when the descriptor sets the authenticate flag the gate is the
first registered handler of the sub-route; a falsy or rejected
authentication answers 412 with the error envelope and an empty hook
trace (no hook of the sub-route runs), and a truthy one forwards with no
payload. -/
theorem auth_gate_blocks_hooks (authFn : JObj → Except String Bool) (s : Subservice)
    (body query : JObj) (ha : s.authenticate = true) :
    subserviceChain authFn s =
      authGate authFn ::
        ((s.before.getD []).map (beforeHandler s)
          ++ (match s.callback with
              | some c => [callbackHandler s c]
              | none => [])
          ++ (s.after.getD []).map (afterHandler s)) ∧
    (authFn (mergeData body query) = Except.ok false →
      runChain (subserviceChain authFn s) body query =
        ([], some (serviceExit (PVal.obj (mergeData body query)) (some authErrMsg) 412
          (some authErrMsg)))) ∧
    (∀ e, authFn (mergeData body query) = Except.error e →
      runChain (subserviceChain authFn s) body query =
        ([], some (serviceExit (PVal.obj (mergeData body query)) (some authErrMsg) 412
          (some e)))) ∧
    (authFn (mergeData body query) = Except.ok true →
      authGate authFn body query = ([], Outcome.forward none)) := by
  have hchain : subserviceChain authFn s =
      authGate authFn ::
        ((s.before.getD []).map (beforeHandler s)
          ++ (match s.callback with
              | some c => [callbackHandler s c]
              | none => [])
          ++ (s.after.getD []).map (afterHandler s)) := by
    simp [subserviceChain, ha]
  refine ⟨hchain, ?_, ?_, ?_⟩
  · intro hfalse
    have hg : authGate authFn body query =
        ([], Outcome.respond (serviceExit (PVal.obj (mergeData body query))
          (some authErrMsg) 412 (some authErrMsg))) := by
      simp [authGate, hfalse]
    rw [hchain]
    simp [runChain, hg]
  · intro e herr
    have hg : authGate authFn body query =
        ([], Outcome.respond (serviceExit (PVal.obj (mergeData body query))
          (some authErrMsg) 412 (some e))) := by
      simp [authGate, herr]
    rw [hchain]
    simp [runChain, hg]
  · intro htrue
    simp [authGate, htrue]

/-- Witness for C4: the protected sub-route with a rejecting collaborator. -/
theorem auth_gate_blocks_hooks_witness :
    runChain (subserviceChain (fun _ => Except.ok false) authService) [] [] =
      ([], some (serviceExit (PVal.obj []) (some authErrMsg) 412 (some authErrMsg))) :=
  (auth_gate_blocks_hooks (fun _ => Except.ok false) authService [] [] rfl).2.1 rfl

theorem authGate_input (authFn : JObj → Except String Bool) (body query : JObj)
    (ev : HookEvent) (hev : ev ∈ (authGate authFn body query).1) :
    ev.input = mergeData body query := by
  cases hfn : authFn (mergeData body query) with
  | ok b =>
      cases b <;> simp [authGate, hfn] at hev
  | error e => simp [authGate, hfn] at hev

theorem beforeHandler_input (s : Subservice) (h : Hook) (body query : JObj)
    (ev : HookEvent) (hev : ev ∈ (beforeHandler s h body query).1) :
    ev.input = mergeData body query := by
  cases hfn : h.fn (mergeData body query) with
  | ok r =>
      simp [beforeHandler, hfn] at hev
      rw [hev]
  | error e =>
      simp [beforeHandler, hfn] at hev
      rw [hev]

theorem afterHandler_input (s : Subservice) (h : Hook) (body query : JObj)
    (ev : HookEvent) (hev : ev ∈ (afterHandler s h body query).1) :
    ev.input = mergeData body query := by
  cases hfn : h.fn (mergeData body query) with
  | ok r =>
      simp only [afterHandler, hfn] at hev
      split at hev <;> simp at hev <;> rw [hev]
  | error e =>
      simp [afterHandler, hfn] at hev
      rw [hev]

theorem callbackHandler_input (s : Subservice) (h : Hook) (body query : JObj)
    (ev : HookEvent) (hev : ev ∈ (callbackHandler s h body query).1) :
    ev.input = mergeData body query := by
  cases hfn : h.fn (mergeData body query) with
  | ok r =>
      cases hA : s.after with
      | none =>
          simp [callbackHandler, hfn, hA] at hev
          rw [hev]
      | some l =>
          simp [callbackHandler, hfn, hA] at hev
          rw [hev]
  | error e =>
      simp [callbackHandler, hfn] at hev
      rw [hev]

theorem subserviceChain_handler_input (authFn : JObj → Except String Bool)
    (s : Subservice) (h : Handler) (hmem : h ∈ subserviceChain authFn s)
    (body query : JObj) (ev : HookEvent) (hev : ev ∈ (h body query).1) :
    ev.input = mergeData body query := by
  simp only [subserviceChain, List.mem_append] at hmem
  rcases hmem with ((hauth | hbef) | hcb) | haft
  · rcases hs : s.authenticate with _ | _
    · rw [hs] at hauth
      simp at hauth
    · rw [hs] at hauth
      simp at hauth
      rw [hauth] at hev
      exact authGate_input authFn body query ev hev
  · rcases List.mem_map.mp hbef with ⟨hk, _, rfl⟩
    exact beforeHandler_input s hk body query ev hev
  · cases hc : s.callback with
    | none =>
        rw [hc] at hcb
        simp at hcb
    | some c =>
        rw [hc] at hcb
        simp at hcb
        rw [hcb] at hev
        exact callbackHandler_input s c body query ev hev
  · rcases List.mem_map.mp haft with ⟨hk, _, rfl⟩
    exact afterHandler_input s hk body query ev hev

theorem runChain_events_input (hs : List Handler) (body query : JObj)
    (hh : ∀ h ∈ hs, ∀ ev ∈ (h body query).1, ev.input = mergeData body query) :
    ∀ ev ∈ (runChain hs body query).1, ev.input = mergeData body query := by
  induction hs with
  | nil =>
      intro ev hev
      simp [runChain] at hev
  | cons p rest ih =>
      intro ev hev
      cases hres : p body query with
      | mk evs oc =>
        cases oc with
        | respond r =>
            simp only [runChain, hres] at hev
            exact hh p (List.mem_cons_self p rest) ev (by rw [hres]; exact hev)
        | forward x =>
            simp only [runChain, hres] at hev
            rcases List.mem_append.mp hev with hl | hr
            · exact hh p (List.mem_cons_self p rest) ev (by rw [hres]; exact hl)
            · exact ih (fun g hg => hh g (List.mem_cons_of_mem p hg)) ev hr

/-- C9: every handler rebuilds its data record as the spread of body
then query, so a query binding overrides a body binding of the same
key; every hook invocation of a sub-route run receives exactly the
merged body+query record (never a previous hook's return value); and
each of the four CRUD handlers depends on body and query only through
the merged record. -/
theorem merged_data_semantics :
    (∀ (body query : JObj) (k : String) (v : JVal),
      getField query k = some v → getField (mergeData body query) k = some v) ∧
    (∀ (authFn : JObj → Except String Bool) (s : Subservice) (body query : JObj)
        (ev : HookEvent),
      ev ∈ (runChain (subserviceChain authFn s) body query).1 →
      ev.input = mergeData body query) ∧
    (∀ (name : String) (db : List JObj) (body query b2 q2 : JObj),
      mergeData body query = mergeData b2 q2 →
      putRoute name db body query = putRoute name db b2 q2 ∧
      getRouteDb name db body query = getRouteDb name db b2 q2 ∧
      deleteRoute name db body query = deleteRoute name db b2 q2) ∧
    (∀ (name : String) (create : JObj → Except String JObj) (body query b2 q2 : JObj),
      mergeData body query = mergeData b2 q2 →
      postRoute name create body query = postRoute name create b2 q2) := by
  refine ⟨?_, ?_, ?_, ?_⟩
  · intro body query k v h
    cases hfq : query.find? (fun p => p.1 == k) with
    | none =>
        simp only [getField, hfq] at h
        simp at h
    | some p =>
        have hv : p.2 = v := by
          simp only [getField, hfq] at h
          simpa using h
        simp only [getField, mergeData, List.find?_append, hfq, Option.or]
        simp [hv]
  · intro authFn s body query ev hev
    exact runChain_events_input (subserviceChain authFn s) body query
      (fun h hm ev2 hev2 => subserviceChain_handler_input authFn s h hm body query ev2 hev2)
      ev hev
  · intro name db body query b2 q2 h
    refine ⟨?_, ?_, ?_⟩
    · simp only [putRoute]
      rw [h]
    · simp only [getRouteDb, getRoute]
      rw [h]
    · simp only [deleteRoute]
      rw [h]
  · intro name create body query b2 q2 h
    simp only [postRoute]
    rw [h]

/-- Witness for C9: a key present in both body and query resolves to the
query value, and the hook trace of a sub-route run feeds every hook the
merged record. -/
theorem merged_data_semantics_witness :
    getField (mergeData [("a", JVal.num 1)] [("a", JVal.num 2)]) "a" = some (JVal.num 2) ∧
    putRoute "user" dbOne [("_id", JVal.str "id1")] [] =
      putRoute "user" dbOne [] [("_id", JVal.str "id1")] :=
  ⟨merged_data_semantics.1 [("a", JVal.num 1)] [("a", JVal.num 2)] "a" (JVal.num 2) rfl,
    (merged_data_semantics.2.2.1 "user" dbOne [("_id", JVal.str "id1")] []
      [] [("_id", JVal.str "id1")] (by decide)).1⟩

theorem jsIndexOf_append_singleton (xs : List Nat) (x : Nat) (hx : x ∉ xs) :
    jsIndexOf (xs ++ [x]) x = (xs.length : Int) := by
  induction xs with
  | nil => simp [jsIndexOf]
  | cons y ys ih =>
      have hsplit : ¬(x = y) ∧ x ∉ ys := by
        simpa [List.mem_cons, not_or] using hx
      have hy : (y == x) = false :=
        beq_eq_false_iff_ne.mpr (fun he => hsplit.1 he.symm)
      have hrec := ih hsplit.2
      have hnneg : ¬((ys.length : Int) = -1) := by omega
      simp only [List.cons_append, jsIndexOf, hy, Bool.false_eq_true, if_false,
        List.append_eq, hrec, hnneg, List.length_cons]
      push_cast
      omega

theorem runChain_last_respond (pre : List Handler) (h : Handler) (body query : JObj)
    (hresp : ∀ x, (h body query).2 ≠ Outcome.forward x) :
    (runChain (pre ++ [h]) body query).2.isSome = true := by
  induction pre with
  | nil =>
      cases hres : h body query with
      | mk evs oc =>
        cases oc with
        | respond r => simp [runChain, hres]
        | forward x =>
            exact absurd (by rw [hres]) (hresp x)
  | cons p rest ih =>
      cases hres : p body query with
      | mk evs oc =>
        cases oc with
        | respond r => simp [runChain, hres]
        | forward x =>
            simp only [List.cons_append, runChain, hres]
            exact ih

/-- C1, counterexample: a sub-route whose after list holds the same hook
function twice runs its whole chain to completion — the trace shows the
callback and both after-hook handlers invoking their hooks, so in
particular the hook occupying the LAST after-list entry completes — yet
no terminal response is emitted at all, because `indexOf` finds the
first occurrence of the shared function and never equals the last
index. -/
theorem after_dup_no_response_cex :
    (runChain (subserviceChain (fun _ => Except.ok true) dupAfterService) [] []).2 = none ∧
    (runChain (subserviceChain (fun _ => Except.ok true) dupAfterService) [] []).1 =
      [⟨5, []⟩, ⟨0, []⟩, ⟨0, []⟩] := by
  constructor <;> rfl

/-- C1, amended: provided the sub-route has a callback and its after
list, when given, is non-empty and free of duplicate function
references, every request's chain emits exactly one terminal response
(the run always ends in a sent response, and a sent response stops the
chain); the handler of an after-hook whose first occurrence is the last
index responds 200 with the descriptor's success message and the hook's
result, and with two distinct after-hooks the first hook's handler
forwards without responding while the second hook's handler emits the
success envelope. -/
theorem after_chain_exactly_one_response (authFn : JObj → Except String Bool)
    (s : Subservice) (body query : JObj) (c : Hook)
    (hcb : s.callback = some c)
    (hafter : ∀ l, s.after = some l → l ≠ [] ∧ (l.map Hook.id).Nodup) :
    (runChain (subserviceChain authFn s) body query).2.isSome = true ∧
    (∀ h1 h2 r, s.after = some [h1, h2] → h1.id ≠ h2.id →
      h2.fn (mergeData body query) = Except.ok r →
      afterHandler s h2 body query =
        ([⟨h2.id, mergeData body query⟩],
          Outcome.respond (serviceExit (PVal.obj r) s.message 200 none))) ∧
    (∀ h1 h2 r, s.after = some [h1, h2] → h1.id ≠ h2.id →
      h1.fn (mergeData body query) = Except.ok r →
      afterHandler s h1 body query =
        ([⟨h1.id, mergeData body query⟩], Outcome.forward (some r))) := by
  refine ⟨?_, ?_, ?_⟩
  · cases hA : s.after with
    | none =>
        have hchain : subserviceChain authFn s =
            ((if s.authenticate then [authGate authFn] else [])
              ++ (s.before.getD []).map (beforeHandler s)) ++ [callbackHandler s c] := by
          simp [subserviceChain, hcb, hA, List.append_assoc]
        rw [hchain]
        apply runChain_last_respond
        intro x
        cases hfn : c.fn (mergeData body query) with
        | ok r => simp [callbackHandler, hfn, hA]
        | error e => simp [callbackHandler, hfn]
    | some l =>
        obtain ⟨hne, hnd⟩ := hafter l hA
        rcases List.eq_nil_or_concat l with rfl | ⟨init, lastH, rfl⟩
        · exact absurd rfl hne
        · have hchain : subserviceChain authFn s =
              (((if s.authenticate then [authGate authFn] else [])
                  ++ (s.before.getD []).map (beforeHandler s)
                  ++ [callbackHandler s c])
                ++ init.map (afterHandler s)) ++ [afterHandler s lastH] := by
            simp [subserviceChain, hcb, hA, List.concat_eq_append, List.append_assoc]
          rw [hchain]
          apply runChain_last_respond
          intro x
          cases hfn : lastH.fn (mergeData body query) with
          | error e => simp [afterHandler, hfn]
          | ok r =>
              have hnotin : lastH.id ∉ init.map Hook.id := by
                have hn2 := hnd
                rw [List.concat_eq_append, List.map_append, List.nodup_append] at hn2
                intro hmem
                exact hn2.2.2 hmem (by simp)
              have hcond : jsIndexOf ((s.after.getD []).map Hook.id) lastH.id
                  = (((s.after.getD []).map Hook.id).length : Int) - 1 := by
                rw [hA]
                simp only [Option.getD_some, List.concat_eq_append, List.map_append,
                  List.map_cons, List.map_nil]
                rw [jsIndexOf_append_singleton _ _ hnotin]
                simp only [List.length_append, List.length_cons, List.length_nil]
                push_cast
                omega
              simp [afterHandler, hfn, hcond]
  · intro h1 h2 r hA12 hne12 hok
    have hbe : (h1.id == h2.id) = false := beq_eq_false_iff_ne.mpr hne12
    simp [afterHandler, hok, hA12, jsIndexOf, hbe]
  · intro h1 h2 r hA12 hne12 hok
    simp [afterHandler, hok, hA12, jsIndexOf]

/-- Witness for C1 on the two-distinct-after-hook sub-route: the chain
responds, the second after-hook's handler emits the success envelope,
the first one forwards. -/
theorem after_chain_exactly_one_response_witness :
    (runChain (subserviceChain (fun _ => Except.ok true) twoAfterService) [] []).2.isSome
      = true ∧
    afterHandler twoAfterService a2Hook [] [] =
      ([⟨2, []⟩],
        Outcome.respond (serviceExit (PVal.obj [("x", JVal.num 7)])
          (some "Hi, done!") 200 none)) ∧
    afterHandler twoAfterService a1Hook [] [] = ([⟨1, []⟩], Outcome.forward (some [])) :=
  have h := after_chain_exactly_one_response (fun _ => Except.ok true) twoAfterService
    [] [] cbHook rfl
    (fun l hl => by
      cases hl
      exact ⟨by simp, by decide⟩)
  ⟨h.1, h.2.1 a1Hook a2Hook [("x", JVal.num 7)] rfl (by decide) rfl,
    h.2.2 a1Hook a2Hook [] rfl (by decide) rfl⟩

/-- C10, counterexample: the post-update hook caches an uncached record
WITHOUT touching count, so from the state it produces out of the empty
cache (count 0, one entry) a save followed by a remove of the same
record ends with count equal to — not above — the number of entries. -/
theorem cache_save_remove_no_excess_cex :
    ¬((postRemoveHook (postSaveHook (postUpdateHook ⟨0, []⟩ "a" []) "b" []) "b").data.length
      < (postRemoveHook (postSaveHook (postUpdateHook ⟨0, []⟩ "a" []) "b" []) "b").count) := by
  decide
